import Mathlib

/-!
Verification of the proximity-notification logic of the travel-destination
map component (src/src/components/Map.tsx, the full-featured component).

The component state and every event handler and React effect that touches
the notification logic are embedded as pure Lean functions.  Timestamps are
integers (milliseconds, as produced by Date.now()), coordinates and
distances are rationals, and the Leaflet distance function
L.latLng(a).distanceTo(b) is an injected parameter D of the state machine,
since its implementation lives outside this repository.  The spherical
great-circle formula that Leaflet uses (and that the spec describes) is
embedded separately over the reals as computeDistance.
-/

set_option autoImplicit false

namespace TravelMap

/-- A latitude/longitude pair, polymorphic over the number type. -/
structure GeoPoint (α : Type) where
  lat : α
  lng : α
deriving DecidableEq, Repr

/-- The injected distance capability: models L.latLng(u).distanceTo(d). -/
abbrev DistFn : Type := GeoPoint ℚ → GeoPoint ℚ → ℚ

/-- The React state of the Map component, restricted to the fields the
notification logic reads or writes, plus booleans recording whether the
30-second notification interval and the geolocation watch are currently
registered. -/
structure MapState where
  userPosition : Option (GeoPoint ℚ)
  destinationPosition : Option (GeoPoint ℚ)
  distanceMeters : Option ℚ
  selectedDistance : ℚ
  notificationsEnabled : Bool
  lastNotificationTime : ℤ
  isNearDestination : Bool
  intervalActive : Bool
  watchActive : Bool
  mounted : Bool
deriving DecidableEq, Repr

/-- The threshold selector options of the component. -/
def distanceOptions : List ℚ := [2, 3, 4, 5, 10, 20]

/-- State right after mount: no position, no destination, default 5 km
threshold, notifications on, lastNotificationTime 0, geolocation watch
registered, no 30-second interval yet. -/
def initState : MapState :=
  { userPosition := none
    destinationPosition := none
    distanceMeters := none
    selectedDistance := 5
    notificationsEnabled := true
    lastNotificationTime := 0
    isNearDestination := false
    intervalActive := false
    watchActive := true
    mounted := true }

/-- The effect of Map.tsx lines 194-225: when both positions are present it
recomputes distanceMeters and isNearDestination and, if notifications are
enabled and the user is near, fires a notification when the 30-second
cooldown has elapsed, recording the firing time.  Returns the new state and
whether sendNotification was invoked. -/
def distanceNotificationEffect (D : DistFn) (now : ℤ) (s : MapState) :
    MapState × Bool :=
  match s.userPosition, s.destinationPosition with
  | some user, some destination =>
      let distance := D user destination
      let isNear : Bool := decide (distance ≤ s.selectedDistance * 1000)
      let s1 := { s with distanceMeters := some distance, isNearDestination := isNear }
      if s.notificationsEnabled && isNear then
        let notificationIntervalMs : ℤ := if isNear then 30000 else 60000
        if notificationIntervalMs ≤ now - s.lastNotificationTime then
          ({ s1 with lastNotificationTime := now }, true)
        else
          (s1, false)
      else
        (s1, false)
  | _, _ => (s, false)

/-- The callback of the 30-second interval of Map.tsx lines 237-251: if both
positions are present and the distance is within the threshold it fires a
notification and records the time.  It performs no cooldown or snooze
check. -/
def intervalCallback (D : DistFn) (now : ℤ) (s : MapState) : MapState × Bool :=
  match s.userPosition, s.destinationPosition with
  | some user, some destination =>
      let distance := D user destination
      if distance ≤ s.selectedDistance * 1000 then
        ({ s with lastNotificationTime := now }, true)
      else
        (s, false)
  | _, _ => (s, false)

/-- After an event commits, React re-runs the effects whose dependencies
changed: the distance/notification effect (lines 194-225) and the interval
management effect (lines 228-263), which keeps the 30-second interval
registered exactly while notifications are enabled and a destination is
set. -/
def runEffects (D : DistFn) (now : ℤ) (s : MapState) : MapState × Bool :=
  let r := distanceNotificationEffect D now s
  ({ r.1 with intervalActive := r.1.notificationsEnabled && r.1.destinationPosition.isSome },
   r.2)

/-- Map.tsx lines 293-295: a map click stores the clicked point as the
destination. -/
def handleMapClick (p : GeoPoint ℚ) (s : MapState) : MapState :=
  { s with destinationPosition := some p }

/-- Map.tsx lines 297-302: the Reset button clears the destination, the
distance, the near flag and the notification timestamp. -/
def resetDestination (s : MapState) : MapState :=
  { s with destinationPosition := none
           distanceMeters := none
           isNearDestination := false
           lastNotificationTime := 0 }

/-- Map.tsx lines 304-306: the notifications toggle. -/
def toggleNotifications (s : MapState) : MapState :=
  { s with notificationsEnabled := !s.notificationsEnabled }

/-- Map.tsx lines 308-311: the threshold selector stores the new threshold
and resets the notification timer. -/
def handleDistanceChange (distance : ℚ) (s : MapState) : MapState :=
  { s with selectedDistance := distance, lastNotificationTime := 0 }

/-- Map.tsx lines 404-412: the I am up button implements the 5-minute
snooze by setting lastNotificationTime to Date.now() + 300000. -/
def imUpClick (now : ℤ) (s : MapState) : MapState :=
  { s with lastNotificationTime := now + 300000 }

/-- The external events that drive the component. -/
inductive Event where
  | positionUpdate (p : GeoPoint ℚ)
  | mapClick (p : GeoPoint ℚ)
  | reset
  | toggle
  | distanceChange (km : ℚ)
  | imUp
  | tick
  | unmount
deriving DecidableEq, Repr

/-- When each event can occur: UI events need a mounted component (and the
buttons that exist only under conditions need those conditions: Reset needs
a destination, I am up needs a destination, notifications on and a zero
countdown), a geolocation callback needs the active watch, and an interval
tick needs the registered interval. -/
def eventGuard : Event → ℤ → MapState → Prop
  | .positionUpdate _, _, s => s.watchActive = true
  | .mapClick _, _, s => s.mounted = true
  | .reset, _, s => s.mounted = true ∧ s.destinationPosition.isSome = true
  | .toggle, _, s => s.mounted = true
  | .distanceChange km, _, s => s.mounted = true ∧ km ∈ distanceOptions
  | .imUp, now, s =>
      s.mounted = true ∧ s.destinationPosition.isSome = true ∧
      s.notificationsEnabled = true ∧ s.lastNotificationTime ≤ now
  | .tick, _, s => s.intervalActive = true
  | .unmount, _, s => s.mounted = true

/-- One step of the component: the event handler runs, then the effects
re-run.  Returns the resulting state and whether a notification was fired
while processing the event. -/
def applyEvent (D : DistFn) : Event → ℤ → MapState → MapState × Bool
  | .positionUpdate p, now, s => runEffects D now { s with userPosition := some p }
  | .mapClick p, now, s => runEffects D now (handleMapClick p s)
  | .reset, now, s => runEffects D now (resetDestination s)
  | .toggle, now, s => runEffects D now (toggleNotifications s)
  | .distanceChange km, now, s => runEffects D now (handleDistanceChange km s)
  | .imUp, now, s => runEffects D now (imUpClick now s)
  | .tick, now, s =>
      let r := intervalCallback D now s
      let r2 := runEffects D now r.1
      (r2.1, r.2 || r2.2)
  | .unmount, _, s =>
      ({ s with mounted := false, intervalActive := false, watchActive := false }, false)

/-- The states the component can actually be in: everything obtained from
the freshly mounted state by guarded events at nonnegative clock values. -/
inductive Reachable (D : DistFn) : MapState → Prop where
  | start : Reachable D initState
  | step {s : MapState} (e : Event) (now : ℤ) :
      Reachable D s → 0 ≤ now → eventGuard e now s →
      Reachable D (applyEvent D e now s).1

/-! ### The derived-state invariant -/

/-- The invariant tying the stored derived fields to the inputs: the
distance is absent exactly when a position is absent, the near flag agrees
with the threshold comparison, and when both positions are present the
stored distance is the one the injected distance function yields. -/
def Inv (D : DistFn) (s : MapState) : Prop :=
  (s.distanceMeters = none ↔ (s.userPosition = none ∨ s.destinationPosition = none))
  ∧ (s.isNearDestination = true ↔
      ∃ dm, s.distanceMeters = some dm ∧ dm ≤ s.selectedDistance * 1000)
  ∧ ∀ u d, s.userPosition = some u → s.destinationPosition = some d →
      s.distanceMeters = some (D u d)

/-! ### The great-circle distance of the underlying map library

Modelled from the spec: the repository computes distances through
L.latLng(a).distanceTo(b), whose implementation (Leaflet CRS.Earth.distance)
is not part of this repository.  The spec describes it as the haversine
great-circle distance on a sphere of radius 6371000 m; the following
definitions embed that formula over the reals, including the atan2 of
JavaScript Math.atan2. -/

/-- JavaScript Math.atan2 over the reals. -/
noncomputable def atan2 (y x : ℝ) : ℝ :=
  if 0 < x then Real.arctan (y / x)
  else if x < 0 then
    (if y < 0 then Real.arctan (y / x) - Real.pi else Real.arctan (y / x) + Real.pi)
  else if 0 < y then Real.pi / 2
  else if y < 0 then -(Real.pi / 2)
  else 0

/-- The haversine term: sinDLat * sinDLat + cos(lat1) * cos(lat2) * sinDLon
    * sinDLon, with angles in radians. -/
noncomputable def havTerm (p q : GeoPoint ℝ) : ℝ :=
  let rad := Real.pi / 180
  let lat1 := p.lat * rad
  let lat2 := q.lat * rad
  let sinDLat := Real.sin ((q.lat - p.lat) * rad / 2)
  let sinDLon := Real.sin ((q.lng - p.lng) * rad / 2)
  sinDLat * sinDLat + Real.cos lat1 * Real.cos lat2 * sinDLon * sinDLon

/-- Modelled from the spec: the great-circle distance in meters on a sphere
of radius 6371000 m, as computed by Leaflet CRS.Earth.distance:
R * 2 * atan2(sqrt(a), sqrt(1 - a)) for the haversine term a. -/
noncomputable def computeDistance (p q : GeoPoint ℝ) : ℝ :=
  6371000 * (2 * atan2 (Real.sqrt (havTerm p q)) (Real.sqrt (1 - havTerm p q)))

/-! ### A concrete execution used for witnesses and counterexamples

The injected distance function is instantiated with the constant-zero
function: all concrete runs below keep the user position and the
destination at the same point, where the great-circle distance of the
library is 0 as well (computeDistance_self below), so these runs evaluate
the component exactly as the real distance function would. -/

/-- Stand-in distance for runs in which user and destination coincide. -/
def DistZero : DistFn := fun _ _ => 0

/-- The point (18.5, 73.86) used as positionA in the repository. -/
def p0 : GeoPoint ℚ := ⟨18.5, 73.86⟩

/-- After mapClick at t=1000: destination set, interval registered. -/
def stateA : MapState := (applyEvent DistZero (Event.mapClick p0) 1000 initState).1

/-- After a geolocation fix at the destination at t=40000: the effect fires
a notification and records lastNotificationTime = 40000. -/
def stateB : MapState := (applyEvent DistZero (Event.positionUpdate p0) 40000 stateA).1

/-- After pressing the I am up button at t=50000: lastNotificationTime is
pushed to 350000 (the snooze). -/
def stateC : MapState := (applyEvent DistZero Event.imUp 50000 stateB).1

/-- Modelled from the spec: the evaluateProximity contract, stated over the
injected distance function D in place of computeDistance.  It returns
(none, false) when either point is absent and otherwise the distance
together with the threshold comparison.  The claim below shows the stored
component state refines this function. -/
def evaluateProximity (D : DistFn) (current destination : Option (GeoPoint ℚ))
    (thresholdKm : ℚ) : Option ℚ × Bool :=
  match current, destination with
  | some u, some d => (some (D u d), decide (D u d ≤ thresholdKm * 1000))
  | _, _ => (none, false)

/-- A state with the user position and the destination both at p0 and every
other field as freshly mounted. -/
def sW : MapState :=
  { initState with userPosition := some p0, destinationPosition := some p0 }

lemma inv_of_fields (D : DistFn) (s t : MapState)
    (h : Inv D s)
    (e1 : t.userPosition = s.userPosition)
    (e2 : t.destinationPosition = s.destinationPosition)
    (e3 : t.distanceMeters = s.distanceMeters)
    (e4 : t.isNearDestination = s.isNearDestination)
    (e5 : t.selectedDistance = s.selectedDistance) : Inv D t := by
  rcases h with ⟨h1, h2, h3⟩
  exact ⟨by rw [e1, e2, e3]; exact h1,
         by rw [e3, e4, e5]; exact h2,
         fun u d hu hd => by
           rw [e3]; exact h3 u d (by rw [← e1]; exact hu) (by rw [← e2]; exact hd)⟩

lemma runEffects_inv (D : DistFn) (now : ℤ) (s : MapState)
    (h0 : (s.userPosition = none ∨ s.destinationPosition = none) → Inv D s) :
    Inv D (runEffects D now s).1 := by
  rcases hu : s.userPosition with _ | u
  · refine inv_of_fields D s _ (h0 (Or.inl hu)) ?_ ?_ ?_ ?_ ?_ <;>
      simp [runEffects, distanceNotificationEffect, hu]
  · rcases hd : s.destinationPosition with _ | d
    · refine inv_of_fields D s _ (h0 (Or.inr hd)) ?_ ?_ ?_ ?_ ?_ <;>
        simp [runEffects, distanceNotificationEffect, hu, hd]
    · simp only [Inv, runEffects, distanceNotificationEffect, hu, hd]
      split <;> (try split) <;> (try split) <;> simp [hu, hd, decide_eq_true_eq]

lemma intervalCallback_fields (D : DistFn) (now : ℤ) (s : MapState) :
    (intervalCallback D now s).1.userPosition = s.userPosition
    ∧ (intervalCallback D now s).1.destinationPosition = s.destinationPosition
    ∧ (intervalCallback D now s).1.distanceMeters = s.distanceMeters
    ∧ (intervalCallback D now s).1.isNearDestination = s.isNearDestination
    ∧ (intervalCallback D now s).1.selectedDistance = s.selectedDistance := by
  rcases hu : s.userPosition with _ | u
  · simp [intervalCallback, hu]
  · rcases hd : s.destinationPosition with _ | d
    · simp [intervalCallback, hu, hd]
    · simp only [intervalCallback, hu, hd]
      split <;> simp [hu, hd]

/-- Every reachable state satisfies the derived-state invariant: every
event handler, followed by the effects it triggers, preserves it. -/
lemma reachable_inv (D : DistFn) (s : MapState) (h : Reachable D s) : Inv D s := by
  induction h with
  | start =>
      refine ⟨by simp [initState], by simp [initState], ?_⟩
      intro u d hu
      simp [initState] at hu
  | @step t e now hR hnow hg ih =>
      rcases ih with ⟨ih1, ih2, ih3⟩
      have hNearOfNone : t.distanceMeters = none → t.isNearDestination = false := by
        intro hdm
        cases hb : t.isNearDestination
        · rfl
        · rcases ih2.mp hb with ⟨dm, hdm2, _⟩
          rw [hdm] at hdm2
          cases hdm2
      cases e with
      | positionUpdate p =>
          show Inv D (runEffects D now { t with userPosition := some p }).1
          apply runEffects_inv
          intro habs
          have hd : t.destinationPosition = none := by
            rcases habs with h | h
            · simp at h
            · simpa using h
          have hdm : t.distanceMeters = none := ih1.mpr (Or.inr hd)
          have hnear := hNearOfNone hdm
          refine ⟨by simp [hdm, hd], by simp [hnear, hdm], ?_⟩
          intro u d hu hdd
          simp only [hd] at hdd
          cases hdd
      | mapClick p =>
          show Inv D (runEffects D now (handleMapClick p t)).1
          apply runEffects_inv
          intro habs
          have hu : t.userPosition = none := by
            rcases habs with h | h
            · simpa [handleMapClick] using h
            · simp [handleMapClick] at h
          have hdm : t.distanceMeters = none := ih1.mpr (Or.inl hu)
          have hnear := hNearOfNone hdm
          refine ⟨by simp [handleMapClick, hdm, hu], by simp [handleMapClick, hnear, hdm], ?_⟩
          intro u d hu2 hdd
          simp only [handleMapClick, hu] at hu2
          cases hu2
      | reset =>
          show Inv D (runEffects D now (resetDestination t)).1
          apply runEffects_inv
          intro _
          refine ⟨by simp [resetDestination], by simp [resetDestination], ?_⟩
          intro u d _ hdd
          simp [resetDestination] at hdd
      | toggle =>
          show Inv D (runEffects D now (toggleNotifications t)).1
          apply runEffects_inv
          intro _
          exact inv_of_fields D t _ ⟨ih1, ih2, ih3⟩ rfl rfl rfl rfl rfl
      | distanceChange km =>
          show Inv D (runEffects D now (handleDistanceChange km t)).1
          apply runEffects_inv
          intro habs
          have habs2 : t.userPosition = none ∨ t.destinationPosition = none := by
            rcases habs with h | h
            · exact Or.inl (by simpa [handleDistanceChange] using h)
            · exact Or.inr (by simpa [handleDistanceChange] using h)
          have hdm : t.distanceMeters = none := ih1.mpr habs2
          have hnear := hNearOfNone hdm
          refine ⟨?_, by simp [handleDistanceChange, hnear, hdm], ?_⟩
          · simpa [handleDistanceChange] using ih1
          intro u d hu hdd
          rcases habs2 with h | h
          · simp only [handleDistanceChange, h] at hu
            cases hu
          · simp only [handleDistanceChange, h] at hdd
            cases hdd
      | imUp =>
          show Inv D (runEffects D now (imUpClick now t)).1
          apply runEffects_inv
          intro _
          exact inv_of_fields D t _ ⟨ih1, ih2, ih3⟩ rfl rfl rfl rfl rfl
      | tick =>
          show Inv D (runEffects D now (intervalCallback D now t).1).1
          apply runEffects_inv
          intro _
          obtain ⟨f1, f2, f3, f4, f5⟩ := intervalCallback_fields D now t
          exact inv_of_fields D t _ ⟨ih1, ih2, ih3⟩ f1 f2 f3 f4 f5
      | unmount =>
          exact ⟨ih1, ih2, ih3⟩

/-! ### Firing conditions of the recompute path -/

/-- If the distance/notification effect fires, then notifications were
enabled, the recomputed near flag is set, and the 30-second cooldown had
elapsed (the 60000 branch of the conditional is dead, because the cooldown
is only consulted when isNear holds). -/
lemma distanceNotificationEffect_fire (D : DistFn) (now : ℤ) (s : MapState)
    (hfire : (distanceNotificationEffect D now s).2 = true) :
    s.notificationsEnabled = true
    ∧ (distanceNotificationEffect D now s).1.isNearDestination = true
    ∧ 30000 ≤ now - s.lastNotificationTime := by
  rcases hu : s.userPosition with _ | u
  · rw [distanceNotificationEffect] at hfire
    simp [hu] at hfire
  rcases hd : s.destinationPosition with _ | d
  · rw [distanceNotificationEffect] at hfire
    simp [hu, hd] at hfire
  rw [distanceNotificationEffect] at hfire ⊢
  simp only [hu, hd] at hfire ⊢
  by_cases hnear : D u d ≤ s.selectedDistance * 1000
  · by_cases hen : s.notificationsEnabled = true
    · by_cases hcool : (30000 : ℤ) ≤ now - s.lastNotificationTime
      · simp [hnear, hen, hcool]
      · simp [hnear, hen, hcool] at hfire
    · simp only [Bool.not_eq_true] at hen
      simp [hnear, hen] at hfire
  · simp [hnear] at hfire

/-- If the 30-second interval callback fires, both positions were present
and the distance was within the threshold; the callback consults neither
the cooldown nor the notificationsEnabled flag. -/
lemma intervalCallback_fire (D : DistFn) (now : ℤ) (s : MapState)
    (hfire : (intervalCallback D now s).2 = true) :
    ∃ u d, s.userPosition = some u ∧ s.destinationPosition = some d
      ∧ D u d ≤ s.selectedDistance * 1000 := by
  rcases hu : s.userPosition with _ | u
  · rw [intervalCallback] at hfire
    simp [hu] at hfire
  rcases hd : s.destinationPosition with _ | d
  · rw [intervalCallback] at hfire
    simp [hu, hd] at hfire
  rw [intervalCallback] at hfire
  simp only [hu, hd] at hfire
  by_cases hnear : D u d ≤ s.selectedDistance * 1000
  · exact ⟨u, d, rfl, rfl, hnear⟩
  · simp [hnear] at hfire

lemma reachA : Reachable DistZero stateA :=
  Reachable.step (Event.mapClick p0) 1000 Reachable.start (by norm_num)
    (show initState.mounted = true from rfl)

lemma reachB : Reachable DistZero stateB :=
  Reachable.step (Event.positionUpdate p0) 40000 reachA (by norm_num)
    (by show stateA.watchActive = true
        norm_num [stateA, applyEvent, runEffects, distanceNotificationEffect,
          handleMapClick, initState])

lemma reachC : Reachable DistZero stateC :=
  Reachable.step Event.imUp 50000 reachB (by norm_num)
    (by show stateB.mounted = true ∧ stateB.destinationPosition.isSome = true ∧
          stateB.notificationsEnabled = true ∧ stateB.lastNotificationTime ≤ 50000
        norm_num [stateB, stateA, applyEvent, runEffects, distanceNotificationEffect,
          handleMapClick, initState, DistZero])

lemma havTerm_symm (p q : GeoPoint ℝ) : havTerm p q = havTerm q p := by
  simp only [havTerm]
  have e1 : Real.sin ((q.lat - p.lat) * (Real.pi / 180) / 2)
      = -Real.sin ((p.lat - q.lat) * (Real.pi / 180) / 2) := by
    rw [show (q.lat - p.lat) * (Real.pi / 180) / 2
        = -((p.lat - q.lat) * (Real.pi / 180) / 2) by ring, Real.sin_neg]
  have e2 : Real.sin ((q.lng - p.lng) * (Real.pi / 180) / 2)
      = -Real.sin ((p.lng - q.lng) * (Real.pi / 180) / 2) := by
    rw [show (q.lng - p.lng) * (Real.pi / 180) / 2
        = -((p.lng - q.lng) * (Real.pi / 180) / 2) by ring, Real.sin_neg]
  rw [e1, e2]
  ring

lemma havTerm_self (p : GeoPoint ℝ) : havTerm p p = 0 := by
  simp [havTerm]

lemma atan2_zero_one : atan2 0 1 = 0 := by
  rw [atan2, if_pos (by norm_num : (0 : ℝ) < 1)]
  simp

lemma computeDistance_symm (p q : GeoPoint ℝ) :
    computeDistance p q = computeDistance q p := by
  simp only [computeDistance, havTerm_symm p q]

lemma computeDistance_self (p : GeoPoint ℝ) : computeDistance p p = 0 := by
  simp [computeDistance, havTerm_self, atan2_zero_one]

/-! ### The claims -/

/-- Claim C1, amended: on the distance-recompute path a notification fires
only if notifications are enabled, the recomputed isNear flag is true, and
now - lastNotifiedAt is at least the 30000 ms cooldown (the cooldown is
30000 whenever it is consulted, because it is consulted only when isNear
holds).  The 30-second interval path is exempt: it fires without a
cooldown check, as the counterexample shows. -/
theorem claim_C1_cooldown_on_recompute_path (D : DistFn) (now : ℤ) (s : MapState)
    (hfire : (distanceNotificationEffect D now s).2 = true) :
    s.notificationsEnabled = true
    ∧ (distanceNotificationEffect D now s).1.isNearDestination = true
    ∧ 30000 ≤ now - s.lastNotificationTime :=
  distanceNotificationEffect_fire D now s hfire

/-- Witness for claim C1: at sW at time 40000 the recompute path does fire,
and the three conditions hold there. -/
theorem claim_C1_witness :
    (distanceNotificationEffect DistZero 40000 sW).2 = true
    ∧ (sW.notificationsEnabled = true
       ∧ (distanceNotificationEffect DistZero 40000 sW).1.isNearDestination = true
       ∧ 30000 ≤ (40000 : ℤ) - sW.lastNotificationTime) :=
  ⟨by norm_num [distanceNotificationEffect, sW, initState, DistZero],
   claim_C1_cooldown_on_recompute_path DistZero 40000 sW
     (by norm_num [distanceNotificationEffect, sW, initState, DistZero])⟩

/-- Counterexample to claim C1 as stated: in the reachable state stateC
(destination set at 1000, notification fired at 40000, snooze pressed at
50000) the 30-second interval tick at 70000 delivers a notification even
though now - lastNotifiedAt = 70000 - 350000 is far below the 30000 ms
cooldown: the interval callback never consults the cooldown. -/
theorem claim_C1_counterexample :
    Reachable DistZero stateC
    ∧ eventGuard Event.tick 70000 stateC
    ∧ (applyEvent DistZero Event.tick 70000 stateC).2 = true
    ∧ ¬ 30000 ≤ (70000 : ℤ) - stateC.lastNotificationTime := by
  refine ⟨reachC, ?_, ?_, ?_⟩
  · show stateC.intervalActive = true
    norm_num [stateC, stateB, stateA, applyEvent, runEffects, intervalCallback,
      distanceNotificationEffect, imUpClick, handleMapClick, initState, DistZero]
  · norm_num [stateC, stateB, stateA, applyEvent, runEffects, intervalCallback,
      distanceNotificationEffect, imUpClick, handleMapClick, initState, DistZero]
  · norm_num [stateC, stateB, stateA, applyEvent, runEffects, intervalCallback,
      distanceNotificationEffect, imUpClick, handleMapClick, initState, DistZero]

/-- Claim C2 is the intended behavior but the code violates it: in the
reachable state stateC the snooze is active at time 70000 (70000 is before
snoozedUntil = 350000, and the UI is showing the paused countdown), yet the
30-second interval tick delivers a notification, because the interval
callback reads neither lastNotificationTime nor any snooze state. -/
theorem claim_C2_interval_fires_during_snooze :
    Reachable DistZero stateC
    ∧ (70000 : ℤ) < stateC.lastNotificationTime
    ∧ (applyEvent DistZero Event.tick 70000 stateC).2 = true := by
  refine ⟨reachC, ?_, ?_⟩
  · norm_num [stateC, stateB, stateA, applyEvent, runEffects, intervalCallback,
      distanceNotificationEffect, imUpClick, handleMapClick, initState, DistZero]
  · norm_num [stateC, stateB, stateA, applyEvent, runEffects, intervalCallback,
      distanceNotificationEffect, imUpClick, handleMapClick, initState, DistZero]

/-- Claim C3: in every reachable state the stored pair (distanceMeters,
isNearDestination) is exactly what evaluateProximity returns on the current
position, the destination and the threshold: (none, false) when either
point is absent, and otherwise the injected distance with its threshold
comparison. -/
theorem claim_C3_evaluateProximity (D : DistFn) (s : MapState) (h : Reachable D s) :
    (s.distanceMeters, s.isNearDestination)
      = evaluateProximity D s.userPosition s.destinationPosition s.selectedDistance := by
  obtain ⟨h1, h2, h3⟩ := reachable_inv D s h
  have hNone : s.distanceMeters = none → s.isNearDestination = false := by
    intro hdm
    cases hb : s.isNearDestination
    · rfl
    · rcases h2.mp hb with ⟨dm, hdm2, _⟩
      rw [hdm] at hdm2
      cases hdm2
  rcases hu : s.userPosition with _ | u
  · have hdm : s.distanceMeters = none := h1.mpr (Or.inl hu)
    simp [evaluateProximity, hdm, hNone hdm]
  rcases hd : s.destinationPosition with _ | d
  · have hdm : s.distanceMeters = none := h1.mpr (Or.inr hd)
    simp [evaluateProximity, hdm, hNone hdm]
  · have hdm : s.distanceMeters = some (D u d) := h3 u d hu hd
    have hb : s.isNearDestination = decide (D u d ≤ s.selectedDistance * 1000) := by
      cases hc : decide (D u d ≤ s.selectedDistance * 1000)
      · cases hb2 : s.isNearDestination
        · rfl
        · rcases h2.mp hb2 with ⟨dm, hdm2, hle⟩
          rw [hdm] at hdm2
          injection hdm2 with e
          exact absurd (e ▸ hle) (of_decide_eq_false hc)
      · exact h2.mpr ⟨D u d, hdm, of_decide_eq_true hc⟩
    simp [evaluateProximity, hdm, hb]

/-- Witness for claim C3: the reachable state stateB, in which both points
are present at p0, refines evaluateProximity. -/
theorem claim_C3_witness :
    Reachable DistZero stateB
    ∧ (stateB.distanceMeters, stateB.isNearDestination)
        = evaluateProximity DistZero stateB.userPosition stateB.destinationPosition
            stateB.selectedDistance :=
  ⟨reachB, claim_C3_evaluateProximity DistZero stateB reachB⟩

/-- Claim C4: in every reachable state the isNear flag holds exactly when a
distance is stored and it is within selectedDistance kilometers. -/
theorem claim_C4_isNear_invariant (D : DistFn) (s : MapState) (h : Reachable D s) :
    s.isNearDestination = true
      ↔ ∃ dm, s.distanceMeters = some dm ∧ dm ≤ s.selectedDistance * 1000 :=
  (reachable_inv D s h).2.1

/-- Witness for claim C4 at the reachable state stateB, where the flag is
set and the stored distance 0 is within the 5 km threshold. -/
theorem claim_C4_witness :
    Reachable DistZero stateB
    ∧ (stateB.isNearDestination = true
        ↔ ∃ dm, stateB.distanceMeters = some dm ∧ dm ≤ stateB.selectedDistance * 1000) :=
  ⟨reachB, claim_C4_isNear_invariant DistZero stateB reachB⟩

/-- Claim C5: in every reachable state the stored distance is absent exactly
when the current position or the destination is absent. -/
theorem claim_C5_distance_none_iff (D : DistFn) (s : MapState) (h : Reachable D s) :
    s.distanceMeters = none
      ↔ (s.userPosition = none ∨ s.destinationPosition = none) :=
  (reachable_inv D s h).1

/-- Witness for claim C5 at the reachable state stateA, where a destination
exists but no position fix has arrived, and the distance is absent. -/
theorem claim_C5_witness :
    Reachable DistZero stateA
    ∧ (stateA.distanceMeters = none
        ↔ (stateA.userPosition = none ∨ stateA.destinationPosition = none)) :=
  ⟨reachA, claim_C5_distance_none_iff DistZero stateA reachA⟩

/-- Claim C6: the great-circle distance (radius 6371000 m, embedded as
computeDistance) is symmetric and vanishes on equal points. -/
theorem claim_C6_computeDistance (a b p : GeoPoint ℝ) :
    computeDistance a b = computeDistance b a ∧ computeDistance p p = 0 :=
  ⟨computeDistance_symm a b, computeDistance_self p⟩

/-- Claim C7: resetting the destination (including the effects that follow)
clears the destination, the distance, the near flag and the notification
timestamp (which also carries the snooze), and leaves the threshold and the
notifications-enabled flag unchanged. -/
theorem claim_C7_resetDestination (D : DistFn) (now : ℤ) (s : MapState) :
    (applyEvent D Event.reset now s).1.destinationPosition = none
    ∧ (applyEvent D Event.reset now s).1.distanceMeters = none
    ∧ (applyEvent D Event.reset now s).1.isNearDestination = false
    ∧ (applyEvent D Event.reset now s).1.lastNotificationTime = 0
    ∧ (applyEvent D Event.reset now s).1.selectedDistance = s.selectedDistance
    ∧ (applyEvent D Event.reset now s).1.notificationsEnabled = s.notificationsEnabled := by
  rcases hu : s.userPosition with _ | u <;>
    simp [applyEvent, runEffects, distanceNotificationEffect, resetDestination, hu]

/-- Claim C8: changing the threshold stores the new value and zeroes the
notification timestamp, and the recompute effect that follows fires
immediately when the new threshold makes the user near (for any realistic
clock value of at least 30000 ms). -/
theorem claim_C8_setThreshold (D : DistFn) (s : MapState) (u d : GeoPoint ℚ)
    (km : ℚ) (now : ℤ)
    (hu : s.userPosition = some u) (hd : s.destinationPosition = some d)
    (hen : s.notificationsEnabled = true)
    (hnear : D u d ≤ km * 1000) (hnow : 30000 ≤ now) :
    (handleDistanceChange km s).selectedDistance = km
    ∧ (handleDistanceChange km s).lastNotificationTime = 0
    ∧ (applyEvent D (Event.distanceChange km) now s).2 = true := by
  refine ⟨rfl, rfl, ?_⟩
  show (runEffects D now (handleDistanceChange km s)).2 = true
  simp [runEffects, distanceNotificationEffect, handleDistanceChange,
    hu, hd, hen, hnear, hnow]

/-- Witness for claim C8: at sW, switching the threshold to 2 km at time
40000 stores 2, zeroes the timestamp, and fires at once. -/
theorem claim_C8_witness :
    (sW.userPosition = some p0 ∧ sW.destinationPosition = some p0
      ∧ sW.notificationsEnabled = true ∧ DistZero p0 p0 ≤ 2 * 1000
      ∧ (30000 : ℤ) ≤ 40000)
    ∧ ((handleDistanceChange 2 sW).selectedDistance = 2
        ∧ (handleDistanceChange 2 sW).lastNotificationTime = 0
        ∧ (applyEvent DistZero (Event.distanceChange 2) 40000 sW).2 = true) :=
  ⟨⟨rfl, rfl, rfl, by norm_num [DistZero], by norm_num⟩,
   claim_C8_setThreshold DistZero sW p0 p0 2 40000 rfl rfl rfl
     (by norm_num [DistZero]) (by norm_num)⟩

/-- Claim C9, amended: tearing the component down releases both the
30-second interval and the geolocation watch; clearing the destination
releases the 30-second interval, but the geolocation watch stays active
until teardown (its effect has no dependencies and cleans up only on
unmount). -/
theorem claim_C9_amended (D : DistFn) (now : ℤ) (s : MapState) :
    (applyEvent D Event.unmount now s).1.intervalActive = false
    ∧ (applyEvent D Event.unmount now s).1.watchActive = false
    ∧ (applyEvent D Event.reset now s).1.intervalActive = false := by
  refine ⟨rfl, rfl, ?_⟩
  show (runEffects D now (resetDestination s)).1.intervalActive = false
  rcases hu : s.userPosition with _ | u <;>
    simp [runEffects, distanceNotificationEffect, resetDestination, hu]

/-- Counterexample to claim C9 as stated: in the reachable state stateA a
destination exists and the watch is active; clearing the destination leaves
the geolocation watch registered, so the position subscription is not
released on destination clear. -/
theorem claim_C9_counterexample :
    Reachable DistZero stateA
    ∧ stateA.destinationPosition.isSome = true
    ∧ (applyEvent DistZero Event.reset 2000 stateA).1.watchActive = true := by
  refine ⟨reachA, ?_, ?_⟩
  · norm_num [stateA, applyEvent, runEffects, distanceNotificationEffect,
      handleMapClick, initState]
  · norm_num [stateA, applyEvent, runEffects, distanceNotificationEffect,
      resetDestination, handleMapClick, initState]

/-- Claim C10: the I am up handler at time t leaves lastNotificationTime =
t + 300000 (the effects that re-run at t cannot fire, since the cooldown
test fails by 330000 ms), so the recompute path can next fire only at a
time of at least t + 300000 + 30000: the snooze suppresses that path 30
seconds beyond the advertised 5 minutes. -/
theorem claim_C10_snooze_extends_cooldown (D : DistFn) (s : MapState) (t now : ℤ)
    (hfire : (distanceNotificationEffect D now ((applyEvent D Event.imUp t s).1)).2 = true) :
    (applyEvent D Event.imUp t s).1.lastNotificationTime = t + 300000
    ∧ t + 330000 ≤ now := by
  have hlast : (applyEvent D Event.imUp t s).1.lastNotificationTime = t + 300000 := by
    show (runEffects D t (imUpClick t s)).1.lastNotificationTime = t + 300000
    rcases hu : s.userPosition with _ | u
    · simp [runEffects, distanceNotificationEffect, imUpClick, hu]
    rcases hd : s.destinationPosition with _ | d
    · simp [runEffects, distanceNotificationEffect, imUpClick, hu, hd]
    · simp only [runEffects, distanceNotificationEffect, imUpClick, hu, hd]
      split <;> (try split) <;> (try split) <;> simp_all
  have h3 := (distanceNotificationEffect_fire D now _ hfire).2.2
  rw [hlast] at h3
  exact ⟨hlast, by omega⟩

/-- Witness for claim C10: snoozing sW at t = 0 gives lastNotificationTime
300000, and at now = 330000 the recompute path fires again. -/
theorem claim_C10_witness :
    (distanceNotificationEffect DistZero 330000
        ((applyEvent DistZero Event.imUp 0 sW).1)).2 = true
    ∧ ((applyEvent DistZero Event.imUp 0 sW).1.lastNotificationTime = 0 + 300000
        ∧ (0 : ℤ) + 330000 ≤ 330000) :=
  ⟨by norm_num [applyEvent, runEffects, distanceNotificationEffect, imUpClick,
      sW, initState, DistZero],
   claim_C10_snooze_extends_cooldown DistZero sW 0 330000
     (by norm_num [applyEvent, runEffects, distanceNotificationEffect, imUpClick,
        sW, initState, DistZero])⟩

end TravelMap
